import Mathlib

/-!
Verification of the empty-producer conformance fixture
(src/src/observable/EmptyObservable.ts) of the subscription/scheduling core.

The embedding is a shallow one over an explicit world: a subscriber is a
record of notification methods acting on a world, a scheduler is a record
with a schedule method returning a cancellable handle, and the producer is
the record storing its optional scheduler.  The instrumented world `Log`
records every externally observable call, so call-count claims become
equations between logs.  The scheduler implementations themselves are not
part of the repository; where a claim needs one, a manually steppable test
scheduler is modelled from the specification's scheduling contract.
-/

namespace RxEmpty

/-- One externally observable call: a subscriber notification method being
invoked (tagged with the subscriber's identity), or a scheduler receiving a
schedule request with a given delay for a given subscriber. -/
inductive Event where
  | nextCall (subscriber : Nat) (value : Nat)
  | errorCall (subscriber : Nat) (err : Nat)
  | completeCall (subscriber : Nat)
  | scheduleCall (delay : Nat) (subscriber : Nat)
deriving DecidableEq

/-- The instrumented world: the chronological log of observable calls. -/
abbrev Log := List Event

/-- A subscriber, as the producer sees it: an identity plus the three
notification methods, each a world transformer (`T` is the value type,
`W` the world). -/
structure Subscriber (T W : Type) where
  id : Nat
  next : T → W → W
  error : Nat → W → W
  complete : W → W

/-- The state object literal passed to the scheduler by the producer:
an object holding the subscriber. -/
structure SchedState (T W : Type) where
  subscriber : Subscriber T W

/-- A unit of schedulable work: a function of the scheduling state and the
world, as the scheduling contract requires. -/
abbrev Work (T W : Type) := SchedState T W → W → W

/-- A scheduler, as the producer sees it: a schedule method taking work,
a delay and a state, and returning a cancellable handle of type `H`
together with the updated world. -/
structure Scheduler (T H W : Type) where
  schedule : Work T W → Nat → SchedState T W → W → H × W

/-- The empty producer: its only data is the optional scheduler stored at
construction time. -/
structure EmptyObservable (T H W : Type) where
  scheduler : Option (Scheduler T H W)

/-- Translation of the static factory: `create(scheduler?)` constructs a new
EmptyObservable storing the given scheduler. -/
def EmptyObservable.create {T H W : Type} (scheduler : Option (Scheduler T H W)) :
    EmptyObservable T H W :=
  EmptyObservable.mk scheduler

/-- Translation of the static dispatch method: destructure the state object
and call the subscriber's complete method. -/
def EmptyObservable.dispatch {T W : Type} (state : SchedState T W) : W → W :=
  state.subscriber.complete

/-- Translation of the generation logic: read the stored scheduler; if it is
present, call scheduler.schedule(dispatch, 0, \x7b subscriber \x7d) and
return its handle as the teardown; otherwise call subscriber.complete()
synchronously and return nothing (undefined becomes none). -/
def EmptyObservable._subscribe {T H W : Type} (self : EmptyObservable T H W)
    (subscriber : Subscriber T W) (w : W) : Option H × W :=
  match self.scheduler with
  | some scheduler =>
      let r := scheduler.schedule EmptyObservable.dispatch 0 (SchedState.mk subscriber) w
      (some r.1, r.2)
  | none =>
      (none, subscriber.complete w)

/-- A call-site model of the optional parameter of create: the argument is
either omitted or supplied (possibly as an explicit undefined). -/
inductive OptArg (A : Type) where
  | omitted
  | supplied (value : Option A)

/-- The value an optional parameter receives at the call: an omitted argument
arrives as undefined (none). -/
def OptArg.toValue {A : Type} : OptArg A → Option A
  | OptArg.omitted => none
  | OptArg.supplied v => v

/-- A call to create through its optional parameter. -/
def EmptyObservable.createCall {T H W : Type} (arg : OptArg (Scheduler T H W)) :
    EmptyObservable T H W :=
  EmptyObservable.create arg.toValue

/-- The instrumented subscriber with identity `i`: each notification method
appends the corresponding event to the log and does nothing else. -/
def logSubscriber (i : Nat) : Subscriber Nat Log where
  id := i
  next := fun v w => w ++ [Event.nextCall i v]
  error := fun e w => w ++ [Event.errorCall i e]
  complete := fun w => w ++ [Event.completeCall i]

/-- The instrumented scheduler: its schedule method records the request (the
delay and the subscriber carried by the state) in the log, performs no other
call, and returns the subscriber's identity as the handle. -/
def logScheduler : Scheduler Nat Nat Log where
  schedule := fun _work delay state w =>
    (state.subscriber.id, w ++ [Event.scheduleCall delay state.subscriber.id])

/-- Modelled from the spec: the attachment Subscription returned by subscribe
owns the teardown value returned by the generation logic as its only child
(section 4.1); closing it cancels that teardown when one is present, and when
nothing was deferred the close has no further effect (section 4.5).  The
cancellation effect of a handle is supplied as a parameter since scheduler
internals are external collaborators. -/
def closeAttachment {H W : Type} (cancel : H → W → W) (teardown : Option H)
    (w : W) : W :=
  match teardown with
  | none => w
  | some h => cancel h w

/-- Modelled from the spec: one pending action of the manually steppable test
scheduler (section 4.4): the work, its due time, the state it was scheduled
with, the handle identifying it, and whether its handle has been closed. -/
structure TestPending where
  work : Work Nat Log
  due : Nat
  state : SchedState Nat Log
  id : Nat
  closed : Bool

/-- Modelled from the spec: the state of a run against the manually steppable
test scheduler: the observable-call log, the scheduler's clock, a fresh-handle
counter, and the FIFO queue of pending actions. -/
structure TestWorld where
  log : Log
  clock : Nat
  fresh : Nat
  pending : List TestPending

/-- The initial test world: empty log, clock zero, no pending actions. -/
def initWorld : TestWorld :=
  TestWorld.mk [] 0 0 []

/-- Modelled from the spec: the test scheduler's schedule method (section
4.4): enqueue the work with due time clock + delay, return a fresh handle. -/
def testSchedule (work : Work Nat Log) (delay : Nat) (state : SchedState Nat Log)
    (tw : TestWorld) : Nat × TestWorld :=
  (tw.fresh,
   TestWorld.mk tw.log tw.clock (tw.fresh + 1)
     (tw.pending ++ [TestPending.mk work (tw.clock + delay) state tw.fresh false]))

/-- The scheduler branch of the generation logic run against the test
scheduler: exactly the call the source makes, schedule(dispatch, 0,
\x7b subscriber \x7d), whose handle becomes the attachment's teardown. -/
def testSubscribe (subscriber : Subscriber Nat Log) (tw : TestWorld) :
    Nat × TestWorld :=
  testSchedule EmptyObservable.dispatch 0 (SchedState.mk subscriber) tw

/-- Modelled from the spec: firing one pending action runs its work on its
state unless its handle was closed first, in which case the work never runs
(section 4.4). -/
def runPending (p : TestPending) (log : Log) : Log :=
  if p.closed then log else p.work p.state log

/-- Modelled from the spec: advancing the test scheduler by `n` moves the
clock forward and fires, in FIFO order, every pending action whose due time
has been reached, removing them from the queue. -/
def TestWorld.advance (tw : TestWorld) (n : Nat) : TestWorld :=
  TestWorld.mk
    ((tw.pending.filter (fun p => decide (p.due ≤ tw.clock + n))).foldl
      (fun l p => runPending p l) tw.log)
    (tw.clock + n)
    tw.fresh
    (tw.pending.filter (fun p => decide (¬ p.due ≤ tw.clock + n)))

/-- Modelled from the spec: closing a handle marks the matching pending
action as closed, so that it will never fire (section 4.4). -/
def TestWorld.closeHandle (tw : TestWorld) (h : Nat) : TestWorld :=
  TestWorld.mk tw.log tw.clock tw.fresh
    (tw.pending.map (fun p =>
      if p.id = h then TestPending.mk p.work p.due p.state p.id true else p))

/-- Whether an event is a value emission or an error delivery, the two kinds
of subscriber call the empty producer must never make. -/
def isEmission : Event → Bool
  | Event.nextCall _ _ => true
  | Event.errorCall _ _ => true
  | _ => false

/-- C1: without a scheduler, subscribing appends exactly one complete call
for the subscriber to the log before returning (synchronously), returns no
teardown, and closing the attachment Subscription built from that teardown
leaves the world unchanged, whatever cancelling a handle would do. -/
theorem subscribe_without_scheduler_completes_once_sync (i : Nat) (w : Log)
    (K : Type) (cancel : K → Log → Log) :
    EmptyObservable._subscribe
        (EmptyObservable.create (none : Option (Scheduler Nat K Log)))
        (logSubscriber i) w
      = (none, w ++ [Event.completeCall i]) ∧
    closeAttachment cancel
        (EmptyObservable._subscribe
          (EmptyObservable.create (none : Option (Scheduler Nat K Log)))
          (logSubscriber i) w).1
        (EmptyObservable._subscribe
          (EmptyObservable.create (none : Option (Scheduler Nat K Log)))
          (logSubscriber i) w).2
      = (EmptyObservable._subscribe
          (EmptyObservable.create (none : Option (Scheduler Nat K Log)))
          (logSubscriber i) w).2 := by
  exact ⟨rfl, rfl⟩

/-- C2: with a scheduler, subscribing is exactly one schedule call with the
dispatch work, delay 0 and the state holding the subscriber, and returns the
handle schedule returned; against the instrumented scheduler the log gains
exactly one schedule event and no subscriber event. -/
theorem subscribe_with_scheduler_schedules_dispatch :
    (∀ (T K W : Type) (s : Scheduler T K W) (sub : Subscriber T W) (w : W),
        EmptyObservable._subscribe (EmptyObservable.create (some s)) sub w =
          (some (s.schedule EmptyObservable.dispatch 0 (SchedState.mk sub) w).1,
           (s.schedule EmptyObservable.dispatch 0 (SchedState.mk sub) w).2)) ∧
    (∀ (i : Nat) (w : Log),
        EmptyObservable._subscribe (EmptyObservable.create (some logScheduler))
            (logSubscriber i) w =
          (some i, w ++ [Event.scheduleCall 0 i])) := by
  exact ⟨fun _ _ _ _ _ _ => rfl, fun _ _ => rfl⟩

/-- C3: against the manually steppable test scheduler, the complete handler
has not run right after subscribing; advancing by the scheduled delay (0)
makes the log exactly one complete call, and any further advance adds
nothing (exactly once); closing the returned handle before advancing means
the complete call never appears, however far the clock advances. -/
theorem scheduler_deferred_completion_steppable (i : Nat) (d : Nat) :
    (testSubscribe (logSubscriber i) initWorld).2.log = [] ∧
    ((testSubscribe (logSubscriber i) initWorld).2.advance 0).log
      = [Event.completeCall i] ∧
    (((testSubscribe (logSubscriber i) initWorld).2.advance 0).advance d).log
      = [Event.completeCall i] ∧
    (((testSubscribe (logSubscriber i) initWorld).2.closeHandle
        (testSubscribe (logSubscriber i) initWorld).1).advance d).log = [] := by
  refine ⟨rfl, rfl, ?_, ?_⟩
  · simp [testSubscribe, testSchedule, initWorld, TestWorld.advance, runPending,
      EmptyObservable.dispatch, logSubscriber]
  · simp [testSubscribe, testSchedule, initWorld, TestWorld.advance,
      TestWorld.closeHandle, runPending, EmptyObservable.dispatch, logSubscriber]

/-- C4: dispatch does exactly one thing: whatever the state and world, its
entire effect is one call to the state's subscriber's complete method; on the
instrumented subscriber the log gains exactly the one complete event, with no
other subscriber event and no schedule event. -/
theorem dispatch_calls_complete_only :
    (∀ (T W : Type) (state : SchedState T W) (w : W),
        EmptyObservable.dispatch state w = state.subscriber.complete w) ∧
    (∀ (i : Nat) (w : Log),
        EmptyObservable.dispatch (SchedState.mk (logSubscriber i)) w
          = w ++ [Event.completeCall i]) := by
  exact ⟨fun _ _ _ _ => rfl, fun _ _ => rfl⟩

/-- C5: the empty producer never calls next and never calls error: the
scheduler-less subscribe adds no emission event to the log, and with the test
scheduler the log holds no emission event right after subscribing nor after
any advance of the clock. -/
theorem never_next_never_error (i : Nat) (w : Log) (d : Nat) :
    ((EmptyObservable._subscribe
        (EmptyObservable.create (none : Option (Scheduler Nat Nat Log)))
        (logSubscriber i) w).2.filter isEmission = w.filter isEmission) ∧
    ((testSubscribe (logSubscriber i) initWorld).2.log.filter isEmission
      = []) ∧
    ((((testSubscribe (logSubscriber i) initWorld).2).advance d).log.filter
        isEmission = []) := by
  refine ⟨?_, rfl, ?_⟩
  · simp [EmptyObservable._subscribe, EmptyObservable.create, logSubscriber,
      isEmission]
  · simp [testSubscribe, testSchedule, initWorld, TestWorld.advance, runPending,
      EmptyObservable.dispatch, logSubscriber, isEmission]

/-- C6: construction performs no work: create is the pure record constructor,
it only stores the given scheduler as configuration; in this embedding it
neither takes nor produces a world, so it can invoke no subscriber method and
no schedule call. -/
theorem construction_performs_no_work :
    ∀ (T K W : Type) (s : Option (Scheduler T K W)),
      EmptyObservable.create s = EmptyObservable.mk s := by
  exact fun _ _ _ _ => rfl

/-- C7: the producer has no mutable state: it is exactly its stored scheduler
field, and two producers with the same stored scheduler are subscribed to
identically, so every attachment observes the same configuration; subscribing
returns only a teardown and a world, never a modified producer. -/
theorem producer_state_immutable (T K W : Type) (o p : EmptyObservable T K W)
    (sub : Subscriber T W) (w : W) :
    o = EmptyObservable.mk o.scheduler ∧
    (o.scheduler = p.scheduler →
      EmptyObservable._subscribe o sub w = EmptyObservable._subscribe p sub w) := by
  constructor
  · cases o
    rfl
  · intro h
    cases o
    cases p
    cases h
    rfl

/-- Witness for C7 at a concrete input: two producers both storing no
scheduler subscribe identically. -/
theorem producer_state_immutable_witness :
    EmptyObservable._subscribe
        (EmptyObservable.mk (none : Option (Scheduler Nat Nat Log)))
        (logSubscriber 0) []
      = EmptyObservable._subscribe (EmptyObservable.mk none)
          (logSubscriber 0) [] :=
  (producer_state_immutable Nat Nat Log (EmptyObservable.mk none)
    (EmptyObservable.mk none) (logSubscriber 0) []).2 rfl

/-- C8: create returns an EmptyObservable carrying exactly the supplied
optional scheduler as its configuration. -/
theorem create_returns_observable_with_scheduler :
    ∀ (T K W : Type) (s : Option (Scheduler T K W)),
      (EmptyObservable.create s).scheduler = s := by
  exact fun _ _ _ _ => rfl

/-- C9: the scheduler-less branch of the generation logic returns no teardown
value at all (undefined, embedded as none), while the scheduler branch is the
only one returning a handle: the one schedule returned. -/
theorem sync_branch_returns_undefined :
    (∀ (T K W : Type) (sub : Subscriber T W) (w : W),
        (EmptyObservable._subscribe
            (EmptyObservable.mk (none : Option (Scheduler T K W))) sub w).1
          = none) ∧
    (∀ (T K W : Type) (s : Scheduler T K W) (sub : Subscriber T W) (w : W),
        (EmptyObservable._subscribe (EmptyObservable.mk (some s)) sub w).1
          = some (s.schedule EmptyObservable.dispatch 0
              (SchedState.mk sub) w).1) := by
  exact ⟨fun _ _ _ _ _ => rfl, fun _ _ _ _ _ _ => rfl⟩

/-- C10: calling create with the argument omitted and calling it with an
explicit undefined build the same producer, and subscribing it takes the
synchronous-completion branch, because the generation logic branches on the
truthiness of the stored scheduler, not on how the argument was supplied. -/
theorem create_no_arg_eq_create_undefined :
    ∀ (T K W : Type) (sub : Subscriber T W) (w : W),
      EmptyObservable.createCall (OptArg.omitted : OptArg (Scheduler T K W))
          = EmptyObservable.createCall (OptArg.supplied none) ∧
      EmptyObservable._subscribe
          (EmptyObservable.createCall
            (OptArg.omitted : OptArg (Scheduler T K W))) sub w
        = (none, sub.complete w) := by
  exact fun _ _ _ _ _ => ⟨rfl, rfl⟩

end RxEmpty
